import Mathlib

/-
Verification of the TrialScribe drafting pipeline
(src/clinicalTrialTemplateCreation.py).

The development shallowly embeds the Python source: the compliance
checker, the context formatter, and the LangGraph retrieve → draft →
check → (revise → check)* state machine, with external capabilities
(vector-store retrieval, LLM generation) injected as functions.
-/

set_option maxHeartbeats 1000000
set_option maxRecDepth 8000

/-- A single compliance violation: a rule identifier plus a human-readable
message.  Mirrors the ComplianceIssue dataclass (lines 59-62). -/
structure ComplianceIssue where
  rule : String
  message : String
deriving Repr, DecidableEq, Inhabited

/-- Result of the compliance check: the dict returned at lines 82-85,
with ok = (len(issues) == 0). -/
structure CheckResult where
  ok : Bool
  issues : List ComplianceIssue
deriving Repr, DecidableEq

/-- Python substring containment, needle in hay: true iff needle occurs
contiguously in hay (the empty needle occurs in every string). -/
def strContains (hay needle : String) : Bool :=
  (List.range (hay.toList.length + 1)).any
    (fun k => needle.toList.isPrefixOf (hay.toList.drop k))

/-- Python str.lower restricted to ASCII letters (all the rule keywords the
source compares against are ASCII). -/
def pyLower (s : String) : String := String.mk (s.toList.map Char.toLower)

/-- Helper for pyWords: accumulates the current (reversed) word while
scanning the character list, exactly grouping maximal non-whitespace runs. -/
def pyWordsAux : List Char → List Char → List String
  | cur, [] => if cur = [] then [] else [String.mk cur.reverse]
  | cur, c :: cs =>
    if c.isWhitespace then
      if cur = [] then pyWordsAux [] cs
      else String.mk cur.reverse :: pyWordsAux [] cs
    else pyWordsAux (c :: cur) cs

/-- Python text.split() with no argument: the maximal whitespace-delimited
non-empty words of the text. -/
def pyWords (s : String) : List String := pyWordsAux [] s.toList

/-- len(text.split()): the whitespace-delimited word count (line 79). -/
def wordCount (s : String) : Nat := (pyWords s).length

/-- The compliance_check tool (lines 66-85): four heuristic rules evaluated
in a fixed order, accumulating all fired issues without short-circuiting. -/
def compliance_check (text : String) : CheckResult :=
  let issues : List ComplianceIssue :=
    (if strContains text "TBD" || strContains (pyLower text) "to be determined" then
      [⟨"no_placeholders", "Remove TBD/placeholder language."⟩] else [])
    ++ (if strContains (pyLower text) "risk" && !strContains (pyLower text) "mitigation" then
      [⟨"risk_mitigation", "Mention risk mitigation when risks are discussed."⟩] else [])
    ++ (if strContains (pyLower text) "consent" && !strContains (pyLower text) "withdraw" then
      [⟨"consent_withdrawal", "State withdrawal rights in consent context."⟩] else [])
    ++ (if wordCount text < 150 then
      [⟨"min_length", "Provide at least ~150 words for sufficient detail."⟩] else [])
  { ok := issues.isEmpty, issues := issues }

/-- Which of the four rules fires on a given text, by rule identifier;
the firing conditions are read off lines 70-80 of the source. -/
def ruleFires (text : String) : String → Bool
  | "no_placeholders" =>
    strContains text "TBD" || strContains (pyLower text) "to be determined"
  | "risk_mitigation" =>
    strContains (pyLower text) "risk" && !strContains (pyLower text) "mitigation"
  | "consent_withdrawal" =>
    strContains (pyLower text) "consent" && !strContains (pyLower text) "withdraw"
  | "min_length" =>
    decide (wordCount text < 150)
  | _ => false

/-- The four rule identifiers in their evaluation order. -/
def ruleOrder : List String :=
  ["no_placeholders", "risk_mitigation", "consent_withdrawal", "min_length"]

/-- A 150-word text with no trigger phrases, used to exercise the clean-pass
behaviour of the checker. -/
def cleanText150 : String := String.intercalate " " (List.replicate 150 "w")

/-- C5: every text with whitespace-delimited word count at least 150 that
contains none of the literal marker TBD, the phrase "to be determined"
(case-insensitive), "risk" without "mitigation" (case-insensitive), or
"consent" without "withdraw" (case-insensitive) passes the compliance
check: ok = true and an empty issue list. -/
theorem compliance_check_clean_pass (text : String)
    (hlen : 150 ≤ wordCount text)
    (h1 : strContains text "TBD" = false)
    (h2 : strContains (pyLower text) "to be determined" = false)
    (h3 : strContains (pyLower text) "risk" = false ∨ strContains (pyLower text) "mitigation" = true)
    (h4 : strContains (pyLower text) "consent" = false ∨ strContains (pyLower text) "withdraw" = true) :
    (compliance_check text).ok = true ∧ (compliance_check text).issues = [] := by
  have hn : ¬ wordCount text < 150 := by omega
  rcases h3 with h3 | h3 <;> rcases h4 with h4 | h4 <;>
    simp [compliance_check, h1, h2, h3, h4, hn]

/-- Witness for C5: a text of exactly 150 words with no trigger phrases
passes the compliance check. -/
theorem compliance_check_clean_pass_witness :
    150 ≤ wordCount cleanText150
    ∧ (compliance_check cleanText150).ok = true
    ∧ (compliance_check cleanText150).issues = [] := by
  have h := compliance_check_clean_pass cleanText150 (by decide) (by decide) (by decide)
      (Or.inl (by decide)) (Or.inl (by decide))
  exact ⟨by decide, h.1, h.2⟩

/-- C6: every text whose whitespace-delimited word count is below 150 gets a
min_length issue regardless of its other content, and the input "TBD" yields
exactly the issues [no_placeholders, min_length]. -/
theorem compliance_check_min_length (text : String) (h : wordCount text < 150) :
    (∃ m, ComplianceIssue.mk "min_length" m ∈ (compliance_check text).issues)
    ∧ (compliance_check "TBD").issues.map (fun i => i.rule) =
        ["no_placeholders", "min_length"] := by
  constructor
  · refine ⟨"Provide at least ~150 words for sufficient detail.", ?_⟩
    simp only [compliance_check]
    exact List.mem_append_right _ (by simp [h])
  · decide

/-- Witness for C6: applied to the concrete input "TBD". -/
theorem compliance_check_min_length_witness :
    wordCount "TBD" < 150
    ∧ ∃ m, ComplianceIssue.mk "min_length" m ∈ (compliance_check "TBD").issues :=
  ⟨by decide, (compliance_check_min_length "TBD" (by decide)).1⟩

/-- C7: for every input text the checker evaluates all four rules without
short-circuiting, returns exactly the fired subset in the fixed relative
order no_placeholders, risk_mitigation, consent_withdrawal, min_length,
and ok = true iff no rule fired. -/
theorem compliance_check_order_stable (text : String) :
    (compliance_check text).issues.map (fun i => i.rule) = ruleOrder.filter (ruleFires text)
    ∧ ((compliance_check text).ok = true ↔ ∀ r ∈ ruleOrder, ruleFires text r = false) := by
  cases h1 : strContains text "TBD" || strContains (pyLower text) "to be determined" <;>
  cases h2 : strContains (pyLower text) "risk" && !strContains (pyLower text) "mitigation" <;>
  cases h3 : strContains (pyLower text) "consent" && !strContains (pyLower text) "withdraw" <;>
  by_cases h4 : wordCount text < 150 <;>
    simp [compliance_check, ruleFires, ruleOrder, List.filter, h1, h2, h3, h4]

/-- Witness for C7: the fired-subset equation at input "TBD", and the
ok-iff-no-rule-fired direction instantiated at the clean 150-word text. -/
theorem compliance_check_order_stable_witness :
    (compliance_check "TBD").issues.map (fun i => i.rule) = ruleOrder.filter (ruleFires "TBD")
    ∧ (compliance_check cleanText150).ok = true :=
  ⟨(compliance_check_order_stable "TBD").1,
   ((compliance_check_order_stable cleanText150).2).mpr (by decide)⟩

/-- C10: the empty string fails the compliance check with exactly one issue,
min_length: the empty text triggers none of the three content rules but has
word count 0. -/
theorem compliance_check_empty_text :
    (compliance_check "").ok = false
    ∧ (compliance_check "").issues.map (fun i => i.rule) = ["min_length"] := by
  decide

/-- A retrieved reference snippet: page_content plus the optional source
path stored in metadata (metadata.get("source", "doc"), line 185). -/
structure Document where
  page_content : String
  source : Option String
deriving Repr, DecidableEq

/-- os.path.basename for POSIX paths: the suffix after the last slash. -/
def os_basename (p : String) : String :=
  String.mk ((p.toList.reverse.takeWhile (fun c => c ≠ '/')).reverse)

/-- Python character slicing s[:n]: the first n characters. -/
def pyTruncate (s : String) (n : Nat) : String := String.mk (s.toList.take n)

/-- Python s.replace(a, b) for single characters. -/
def replaceChar (s : String) (a b : Char) : String :=
  String.mk (s.toList.map (fun c => if c = a then b else c))

/-- Python sep.join(xs). -/
def joinWith (sep : String) : List String → String
  | [] => ""
  | [x] => x
  | x :: y :: xs => x ++ sep ++ joinWith sep (y :: xs)

/-- One line of the formatted context (the f-string at line 186): the
1-based index, the basename of the source, the first 350 characters of the
snippet with newlines replaced by spaces, and a trailing "..." marker. -/
def fmt_entry (idx : Nat) (d : Document) : String :=
  "- [" ++ toString idx ++ "] (" ++ os_basename (d.source.getD "doc") ++ ") "
    ++ replaceChar (pyTruncate d.page_content 350) '\n' ' ' ++ "..."

/-- The lines accumulated by the for-loop in fmt_context (lines 183-187),
with enumerate(docs, 1) numbering. -/
def fmt_lines (idx : Nat) : List Document → List String
  | [] => []
  | d :: ds => fmt_entry idx d :: fmt_lines (idx + 1) ds

/-- fmt_context (lines 182-189): the numbered snippet lines joined by
newlines. -/
def fmt_context (docs : List Document) : String :=
  joinWith "\n" (fmt_lines 1 docs)

/-- The DocState TypedDict (lines 172-179).  All fields are optional
(total=False); absent fields are none. -/
structure DocState where
  task : Option String := none
  context : Option String := none
  draft : Option String := none
  issues : Option (List ComplianceIssue) := none
  i : Option Nat := none
  max_iters : Option Nat := none
  final : Option String := none
deriving Repr, DecidableEq

/-- The injected external capabilities: the vector-store retriever and the
LLM chains used by the draft and revise nodes.  Retrieval returns the
relevant documents for a query; the generators map (task, context) resp.
(draft, issues string) to generated text. -/
structure Caps where
  retrieve : String → List Document
  draftGen : String → String → String
  reviseGen : String → String → String

/-- The retrieve node (lines 194-199): fetches documents for the task and
stores the formatted context. -/
def retrieve_node (caps : Caps) (s : DocState) : DocState :=
  { s with context := some (fmt_context (caps.retrieve (s.task.getD ""))) }

/-- The draft node (lines 204-208): generates the initial draft from task
and context (context defaults to "" via state.get). -/
def draft_node (caps : Caps) (s : DocState) : DocState :=
  { s with draft := some (caps.draftGen (s.task.getD "") (s.context.getD "")) }

/-- The check node (lines 213-215): runs the compliance check on the
current draft and stores the resulting issue list. -/
def check_node (s : DocState) : DocState :=
  { s with issues := some (compliance_check (s.draft.getD "")).issues }

/-- The "- rule: message" bulleted issue list joined by newlines that the
revise node embeds into the revision prompt (lines 222-223). -/
def issuesStr (s : DocState) : String :=
  joinWith "\n" ((s.issues.getD []).map (fun iss => "- " ++ iss.rule ++ ": " ++ iss.message))

/-- The revise node (lines 220-226): generates a revised draft from the
current draft and the issue list, and increments the iteration counter i
(state.get("i", 0) + 1). -/
def revise_node (caps : Caps) (s : DocState) : DocState :=
  { s with draft := some (caps.reviseGen (s.draft.getD "") (issuesStr s)),
           i := some (s.i.getD 0 + 1) }

/-- The router after the check node (lines 231-237): "end" when the issue
list is empty, "end" when i >= max_iters (i defaulting to 0 and max_iters
to 2 via state.get), otherwise "revise". -/
def decide_next (s : DocState) : String :=
  if (s.issues.getD []).isEmpty then "end"
  else if s.max_iters.getD 2 ≤ s.i.getD 0 then "end"
  else "revise"

/-- Counters for the external side effects of a run: retrieval calls,
drafting generation calls, compliance checks, and revision generation
calls. -/
structure Calls where
  retrievals : Nat := 0
  draftCalls : Nat := 0
  checkCalls : Nat := 0
  reviseCalls : Nat := 0
deriving Repr, DecidableEq

/-- Componentwise sum of call counters. -/
def addCalls (a b : Calls) : Calls :=
  ⟨a.retrievals + b.retrievals, a.draftCalls + b.draftCalls,
   a.checkCalls + b.checkCalls, a.reviseCalls + b.reviseCalls⟩

/-- decide_next returns "revise" exactly when the issue list is non-empty
and the iteration counter is still below the bound. -/
theorem decide_next_eq_revise_iff (s : DocState) :
    decide_next s = "revise" ↔
      s.issues.getD [] ≠ [] ∧ s.i.getD 0 < s.max_iters.getD 2 := by
  unfold decide_next
  have hne : ("end" : String) ≠ "revise" := by decide
  by_cases h1 : (s.issues.getD []).isEmpty
  · simp only [if_pos h1]
    simp [List.isEmpty_iff] at h1
    simp [hne, h1]
  · by_cases h2 : s.max_iters.getD 2 ≤ s.i.getD 0
    · simp only [if_neg h1, if_pos h2]
      simp [List.isEmpty_iff] at h1
      simp [hne, h1]
      omega
    · simp only [if_neg h1, if_neg h2]
      simp [List.isEmpty_iff] at h1
      simp [h1]
      omega

/-- The check ⇄ revise cycle of the compiled graph (lines 255-256), entered
on a state that has just been produced by the check node.  While the router
answers "revise", the revise node and then the check node run, each bumping
its call counter; otherwise the conditional edge reaches END.  Terminates
because each revision strictly increases i below the max_iters bound. -/
def loopAfterCheck (caps : Caps) (s : DocState) (c : Calls) : DocState × Calls :=
  if _h : decide_next s = "revise" then
    loopAfterCheck caps (check_node (revise_node caps s))
      { c with checkCalls := c.checkCalls + 1, reviseCalls := c.reviseCalls + 1 }
  else (s, c)
termination_by s.max_iters.getD 2 - s.i.getD 0
decreasing_by
  obtain ⟨-, hlt⟩ := (decide_next_eq_revise_iff s).mp _h
  simp only [check_node, revise_node, Option.getD_some]
  omega

/-- One full execution of the compiled graph (build_graph, lines 244-258,
run via app.invoke or one pass of app.stream): retrieve, draft, the first
check, then the bounded revise/check cycle; each external call is tallied. -/
def run_graph (caps : Caps) (s0 : DocState) : DocState × Calls :=
  loopAfterCheck caps (check_node (draft_node caps (retrieve_node caps s0)))
    { retrievals := 1, draftCalls := 1, checkCalls := 1, reviseCalls := 0 }

/-- The default task string of run_demo (lines 363-367). -/
def DEFAULT_TASK : String :=
  "Write a \"Protocol Synopsis\" paragraph for an interventional Phase II oncology trial. Mention design, key eligibility, primary endpoint, AE reporting basics, data protection, and informed consent."

/-- The initial state of a run with a given task and revision budget:
run_demo line 370 with the host-overridable max_iters bound. -/
def initStateN (task : String) (n : Nat) : DocState :=
  { task := some task, i := some 0, max_iters := some n }

/-- The task actually used by run_demo (lines 363-367): the caller's task,
or the default when it is absent or empty (Python: if not task). -/
def demoTask : Option String → String
  | none => DEFAULT_TASK
  | some s => if s = "" then DEFAULT_TASK else s

/-- A Python exception escaping run_demo.  The module never imports
datetime (as dt) or json, so the names used at lines 281 and 309 are
unbound; the first one reached raises NameError. -/
inductive DemoError where
  | nameError (msg : String)
deriving Repr, DecidableEq

/-- stream_run (lines 272-317): iterating app.stream(state_init) executes
the compiled graph one super-step at a time, yielding an event after each
node; the first yielded event is the retrieve node update.  The loop body
then evaluates dt.datetime.utcnow() (line 281), but dt is never imported
and line 281 sits outside the only try/except (which guards just the JSONL
write), so the first event raises NameError unconditionally: exactly one
retrieval call has happened, no drafting, checking or revising, and the
exception propagates to the caller. -/
def stream_run (caps : Caps) (s0 : DocState) : Except DemoError DocState × Calls :=
  let _s1 := retrieve_node caps s0
  (Except.error (DemoError.nameError "name dt is not defined"),
   { retrievals := 1, draftCalls := 0, checkCalls := 0, reviseCalls := 0 })

/-- run_demo (lines 356-379): builds the initial state with i = 0 and
max_iters = 2; when stream is set it runs stream_run first (lines 371-372),
and only if that returns does app.invoke(state) run (line 373) — an
exception escaping stream_run aborts the demo run before the invoke.
Without streaming, app.invoke performs the single full graph execution.
The counters tally the external calls of everything executed. -/
def run_demo (caps : Caps) (task : Option String) (stream : Bool) :
    Except DemoError DocState × Calls :=
  let s0 := initStateN (demoTask task) 2
  if stream then
    match stream_run caps s0 with
    | (Except.error e, c) => (Except.error e, c)
    | (Except.ok _, c) =>
      let r := run_graph caps s0
      (Except.ok r.1, addCalls c r.2)
  else
    let r := run_graph caps s0
    (Except.ok r.1, r.2)

/-- Unfolding lemma for the loop when the router answers "revise". -/
theorem loopAfterCheck_revise (caps : Caps) {s : DocState} (c : Calls)
    (h : decide_next s = "revise") :
    loopAfterCheck caps s c =
      loopAfterCheck caps (check_node (revise_node caps s))
        { c with checkCalls := c.checkCalls + 1, reviseCalls := c.reviseCalls + 1 } := by
  rw [loopAfterCheck]
  exact dif_pos h

/-- Unfolding lemma for the loop when the router does not answer "revise". -/
theorem loopAfterCheck_end (caps : Caps) {s : DocState} (c : Calls)
    (h : ¬ decide_next s = "revise") :
    loopAfterCheck caps s c = (s, c) := by
  rw [loopAfterCheck]
  exact dif_neg h

/-- The loop performs at most max_iters - i further revisions and the same
number of further checks. -/
theorem loopAfterCheck_bound (caps : Caps) :
    ∀ (n : Nat) (s : DocState) (c : Calls),
      s.max_iters.getD 2 - s.i.getD 0 ≤ n →
      (loopAfterCheck caps s c).2.reviseCalls ≤ c.reviseCalls + n
      ∧ (loopAfterCheck caps s c).2.checkCalls ≤ c.checkCalls + n := by
  intro n
  induction n with
  | zero =>
    intro s c hm
    have hend : ¬ decide_next s = "revise" := by
      intro h
      obtain ⟨-, hlt⟩ := (decide_next_eq_revise_iff s).mp h
      omega
    rw [loopAfterCheck_end caps c hend]
    constructor <;> simp
  | succ k ih =>
    intro s c hm
    by_cases h : decide_next s = "revise"
    · obtain ⟨-, hlt⟩ := (decide_next_eq_revise_iff s).mp h
      rw [loopAfterCheck_revise caps c h]
      have hm2 : (check_node (revise_node caps s)).max_iters.getD 2
            - (check_node (revise_node caps s)).i.getD 0 ≤ k := by
        simp only [check_node, revise_node, Option.getD_some]
        omega
      have := ih (check_node (revise_node caps s))
        { c with checkCalls := c.checkCalls + 1, reviseCalls := c.reviseCalls + 1 } hm2
      constructor
      · calc (loopAfterCheck caps (check_node (revise_node caps s))
              { c with checkCalls := c.checkCalls + 1,
                       reviseCalls := c.reviseCalls + 1 }).2.reviseCalls
            ≤ c.reviseCalls + 1 + k := this.1
          _ ≤ c.reviseCalls + (k + 1) := by omega
      · calc (loopAfterCheck caps (check_node (revise_node caps s))
              { c with checkCalls := c.checkCalls + 1,
                       reviseCalls := c.reviseCalls + 1 }).2.checkCalls
            ≤ c.checkCalls + 1 + k := this.2
          _ ≤ c.checkCalls + (k + 1) := by omega
    · rw [loopAfterCheck_end caps c h]
      constructor <;> simp

/-- The loop never performs further retrieval or drafting calls. -/
theorem loopAfterCheck_no_retrieval (caps : Caps) :
    ∀ (n : Nat) (s : DocState) (c : Calls),
      s.max_iters.getD 2 - s.i.getD 0 ≤ n →
      (loopAfterCheck caps s c).2.retrievals = c.retrievals
      ∧ (loopAfterCheck caps s c).2.draftCalls = c.draftCalls := by
  intro n
  induction n with
  | zero =>
    intro s c hm
    have hend : ¬ decide_next s = "revise" := by
      intro h
      obtain ⟨-, hlt⟩ := (decide_next_eq_revise_iff s).mp h
      omega
    rw [loopAfterCheck_end caps c hend]
    exact ⟨rfl, rfl⟩
  | succ k ih =>
    intro s c hm
    by_cases h : decide_next s = "revise"
    · obtain ⟨-, hlt⟩ := (decide_next_eq_revise_iff s).mp h
      rw [loopAfterCheck_revise caps c h]
      exact ih (check_node (revise_node caps s)) _ (by
        simp only [check_node, revise_node, Option.getD_some]
        omega)
    · rw [loopAfterCheck_end caps c h]
      exact ⟨rfl, rfl⟩

/-- When every revised draft keeps failing the compliance check, the loop
performs exactly max_iters - i further revisions and ends with the
iteration counter at the bound. -/
theorem loopAfterCheck_exhaust (caps : Caps)
    (Hrev : ∀ d is, (compliance_check (caps.reviseGen d is)).issues ≠ []) :
    ∀ (n : Nat) (s : DocState) (c : Calls),
      s.max_iters.getD 2 - s.i.getD 0 = n →
      s.i.getD 0 ≤ s.max_iters.getD 2 →
      s.issues.getD [] ≠ [] →
      (loopAfterCheck caps s c).2.reviseCalls = c.reviseCalls + n
      ∧ (loopAfterCheck caps s c).1.i.getD 0 = s.max_iters.getD 2 := by
  intro n
  induction n with
  | zero =>
    intro s c hm hle hiss
    have hend : ¬ decide_next s = "revise" := by
      intro h
      obtain ⟨-, hlt⟩ := (decide_next_eq_revise_iff s).mp h
      omega
    rw [loopAfterCheck_end caps c hend]
    constructor
    · show c.reviseCalls = c.reviseCalls + 0
      omega
    · show s.i.getD 0 = s.max_iters.getD 2
      omega
  | succ k ih =>
    intro s c hm hle hiss
    have h : decide_next s = "revise" :=
      (decide_next_eq_revise_iff s).mpr ⟨hiss, by omega⟩
    rw [loopAfterCheck_revise caps c h]
    have hmi : (check_node (revise_node caps s)).max_iters.getD 2
        - (check_node (revise_node caps s)).i.getD 0 = k := by
      simp only [check_node, revise_node, Option.getD_some]
      omega
    have hlei : (check_node (revise_node caps s)).i.getD 0
        ≤ (check_node (revise_node caps s)).max_iters.getD 2 := by
      simp only [check_node, revise_node, Option.getD_some]
      omega
    have hissi : (check_node (revise_node caps s)).issues.getD [] ≠ [] := by
      simp only [check_node, revise_node, Option.getD_some]
      exact Hrev _ _
    have hrec := ih (check_node (revise_node caps s))
      { c with checkCalls := c.checkCalls + 1, reviseCalls := c.reviseCalls + 1 }
      hmi hlei hissi
    constructor
    · rw [hrec.1]
      show c.reviseCalls + 1 + k = c.reviseCalls + (k + 1)
      omega
    · rw [hrec.2]
      simp only [check_node, revise_node]

/-- The loop keeps the retrieval and drafting tallies of a full graph
execution at one each, whatever the initial state. -/
theorem run_graph_retrievals (caps : Caps) (s0 : DocState) :
    (run_graph caps s0).2.retrievals = 1 ∧ (run_graph caps s0).2.draftCalls = 1 := by
  unfold run_graph
  have h := loopAfterCheck_no_retrieval caps
    ((check_node (draft_node caps (retrieve_node caps s0))).max_iters.getD 2
      - (check_node (draft_node caps (retrieve_node caps s0))).i.getD 0)
    (check_node (draft_node caps (retrieve_node caps s0)))
    { retrievals := 1, draftCalls := 1, checkCalls := 1, reviseCalls := 0 }
    (le_refl _)
  exact ⟨h.1, h.2⟩

/-- The five graph nodes of build_graph (lines 244-258), with terminal
standing for LangGraph's END. -/
inductive Node where
  | retrieve
  | draft
  | check
  | revise
  | terminal
deriving DecidableEq, Repr

/-- Small-step transition relation of the compiled graph: the entry point
is retrieve; retrieve → draft and draft → check are unconditional edges;
after the check node runs, the conditional edge routes on decide_next
evaluated on the updated state; revise → check closes the cycle. -/
inductive Step (caps : Caps) : Node × DocState → Node × DocState → Prop where
  | retrieve_step (s : DocState) :
      Step caps (Node.retrieve, s) (Node.draft, retrieve_node caps s)
  | draft_step (s : DocState) :
      Step caps (Node.draft, s) (Node.check, draft_node caps s)
  | check_step_end (s : DocState) (h : ¬ decide_next (check_node s) = "revise") :
      Step caps (Node.check, s) (Node.terminal, check_node s)
  | check_step_revise (s : DocState) (h : decide_next (check_node s) = "revise") :
      Step caps (Node.check, s) (Node.revise, check_node s)
  | revise_step (s : DocState) :
      Step caps (Node.revise, s) (Node.check, revise_node caps s)

/-- The iteration invariant: the counter never exceeds the bound, and on
entry to the revise node it is strictly below the bound. -/
def IterInv (p : Node × DocState) : Prop :=
  p.2.i.getD 0 ≤ p.2.max_iters.getD 2
  ∧ (p.1 = Node.revise → p.2.i.getD 0 < p.2.max_iters.getD 2)

/-- Every graph transition preserves the iteration invariant. -/
theorem step_preserves_iterInv {caps : Caps} {p q : Node × DocState}
    (hs : Step caps p q) (hp : IterInv p) : IterInv q := by
  cases hs with
  | retrieve_step s =>
    refine ⟨?_, fun hcontra => Node.noConfusion hcontra⟩
    simpa [retrieve_node] using hp.1
  | draft_step s =>
    refine ⟨?_, fun hcontra => Node.noConfusion hcontra⟩
    simpa [draft_node] using hp.1
  | check_step_end s h =>
    refine ⟨?_, fun hcontra => Node.noConfusion hcontra⟩
    simpa [check_node] using hp.1
  | check_step_revise s h =>
    have hlt := ((decide_next_eq_revise_iff _).mp h).2
    exact ⟨le_of_lt hlt, fun _ => hlt⟩
  | revise_step s =>
    have hlt := hp.2 rfl
    refine ⟨?_, fun hcontra => Node.noConfusion hcontra⟩
    simp only [revise_node, Option.getD_some]
    simp only [check_node] at hlt
    omega

/-- The iteration invariant holds in every state reachable from a state
satisfying it. -/
theorem reachable_iterInv {caps : Caps} {p q : Node × DocState}
    (hreach : Relation.ReflTransGen (Step caps) p q) (hp : IterInv p) : IterInv q := by
  induction hreach with
  | refl => exact hp
  | tail hab hbc ih => exact step_preserves_iterInv hbc ih

/-- Deterministic stand-in capabilities whose generators always emit the
failing draft "TBD": retrieval finds nothing, and every generated draft
trips the no_placeholders and min_length rules. -/
def capsTBD : Caps :=
  ⟨fun _ => [], fun _ _ => "TBD", fun _ _ => "TBD"⟩

/-- C1: for every revision budget N, a run performs at most N revision
calls and at most N + 1 compliance checks before reaching END; and with
N = 0 the conditional edge goes straight from check to END: zero revision
calls, the final state is exactly the state after the first check, and if
that first check failed its issues are still present at END. -/
theorem run_revision_and_check_bounds (caps : Caps) (task : String) (N : Nat) :
    ((run_graph caps (initStateN task N)).2.reviseCalls ≤ N
    ∧ (run_graph caps (initStateN task N)).2.checkCalls ≤ N + 1)
    ∧ (N = 0 →
        (run_graph caps (initStateN task N)).2.reviseCalls = 0
        ∧ (run_graph caps (initStateN task N)).1 =
            check_node (draft_node caps (retrieve_node caps (initStateN task N)))
        ∧ ((compliance_check
              ((draft_node caps (retrieve_node caps (initStateN task N))).draft.getD "")).issues ≠ [] →
            (run_graph caps (initStateN task N)).1.issues.getD [] ≠ [])) := by
  constructor
  · have hm : (check_node (draft_node caps (retrieve_node caps (initStateN task N)))).max_iters.getD 2
        - (check_node (draft_node caps (retrieve_node caps (initStateN task N)))).i.getD 0 ≤ N := by
      simp [check_node, draft_node, retrieve_node, initStateN]
    have h := loopAfterCheck_bound caps N
      (check_node (draft_node caps (retrieve_node caps (initStateN task N))))
      { retrievals := 1, draftCalls := 1, checkCalls := 1, reviseCalls := 0 } hm
    unfold run_graph
    constructor
    · have h1 := h.1
      simp only at h1
      omega
    · have h2 := h.2
      simp only at h2
      omega
  · intro hN
    subst hN
    have hend : ¬ decide_next
        (check_node (draft_node caps (retrieve_node caps (initStateN task 0)))) = "revise" := by
      intro h
      have hlt := ((decide_next_eq_revise_iff _).mp h).2
      simp [check_node, draft_node, retrieve_node, initStateN] at hlt
    unfold run_graph
    rw [loopAfterCheck_end caps _ hend]
    refine ⟨rfl, rfl, ?_⟩
    intro hfail
    simpa [check_node] using hfail

/-- Witness for C1 at N = 0 with the always-failing stand-in capabilities:
zero revisions and the failing issues still present at END. -/
theorem run_revision_and_check_bounds_witness :
    (run_graph capsTBD (initStateN "t" 0)).2.reviseCalls = 0
    ∧ (run_graph capsTBD (initStateN "t" 0)).1.issues.getD [] ≠ [] := by
  have h := (run_revision_and_check_bounds capsTBD "t" 0).2 rfl
  exact ⟨h.1, h.2.2 (by decide)⟩

/-- C2: in every state reachable during a run, the iteration counter never
exceeds max_iters; and when max_iters = 2 and every generated draft keeps
failing the compliance check, exactly 2 revision calls occur and the run
ends with the iteration counter at 2. -/
theorem iteration_invariant_and_exhaustion (caps : Caps) (task : String) (N : Nat) :
    (∀ p : Node × DocState,
        Relation.ReflTransGen (Step caps) (Node.retrieve, initStateN task N) p →
        p.2.i.getD 0 ≤ p.2.max_iters.getD 2)
    ∧ ((∀ t c, (compliance_check (caps.draftGen t c)).issues ≠ []) →
       (∀ d is, (compliance_check (caps.reviseGen d is)).issues ≠ []) →
       (run_graph caps (initStateN task 2)).2.reviseCalls = 2
       ∧ (run_graph caps (initStateN task 2)).1.i.getD 0 = 2) := by
  constructor
  · intro p hreach
    have h0 : IterInv (Node.retrieve, initStateN task N) := by
      constructor
      · simp [initStateN]
      · intro hcontra
        exact Node.noConfusion hcontra
    exact (reachable_iterInv hreach h0).1
  · intro Hd Hr
    have hm : (check_node (draft_node caps (retrieve_node caps (initStateN task 2)))).max_iters.getD 2
        - (check_node (draft_node caps (retrieve_node caps (initStateN task 2)))).i.getD 0 = 2 := by
      simp [check_node, draft_node, retrieve_node, initStateN]
    have hle : (check_node (draft_node caps (retrieve_node caps (initStateN task 2)))).i.getD 0
        ≤ (check_node (draft_node caps (retrieve_node caps (initStateN task 2)))).max_iters.getD 2 := by
      simp [check_node, draft_node, retrieve_node, initStateN]
    have hiss : (check_node (draft_node caps (retrieve_node caps (initStateN task 2)))).issues.getD [] ≠ [] := by
      simp only [check_node, draft_node, retrieve_node, Option.getD_some]
      exact Hd _ _
    have h := loopAfterCheck_exhaust caps Hr 2
      (check_node (draft_node caps (retrieve_node caps (initStateN task 2))))
      { retrievals := 1, draftCalls := 1, checkCalls := 1, reviseCalls := 0 } hm hle hiss
    unfold run_graph
    constructor
    · rw [h.1]
    · rw [h.2]
      simp [check_node, draft_node, retrieve_node, initStateN]

/-- Witness for C2 with the always-failing stand-in capabilities: the
invariant at the initial state, then exactly 2 revisions and a final
iteration counter of 2. -/
theorem iteration_invariant_and_exhaustion_witness :
    (initStateN "t" 2).i.getD 0 ≤ (initStateN "t" 2).max_iters.getD 2
    ∧ (run_graph capsTBD (initStateN "t" 2)).2.reviseCalls = 2
    ∧ (run_graph capsTBD (initStateN "t" 2)).1.i.getD 0 = 2 := by
  have h1 := (iteration_invariant_and_exhaustion capsTBD "t" 2).1
    (Node.retrieve, initStateN "t" 2) Relation.ReflTransGen.refl
  have h2 := (iteration_invariant_and_exhaustion capsTBD "t" 2).2
    (fun t c => by show (compliance_check "TBD").issues ≠ []; decide)
    (fun d is => by show (compliance_check "TBD").issues ≠ []; decide)
  exact ⟨h1, h2.1, h2.2⟩

/-- C4: after each compliance check the router goes to END when the issue
list is empty; otherwise to END when the iteration counter has reached the
bound (issues remaining); otherwise to revise; and the bound defaults to 2
when the host does not set max_iters. -/
theorem decide_next_router (s : DocState) :
    (s.issues.getD [] = [] → decide_next s = "end")
    ∧ (s.issues.getD [] ≠ [] → s.max_iters.getD 2 ≤ s.i.getD 0 → decide_next s = "end")
    ∧ (s.issues.getD [] ≠ [] → s.i.getD 0 < s.max_iters.getD 2 → decide_next s = "revise")
    ∧ (s.max_iters = none → s.issues.getD [] ≠ [] →
        (decide_next s = "revise" ↔ s.i.getD 0 < 2)) := by
  refine ⟨?_, ?_, ?_, ?_⟩
  · intro h
    unfold decide_next
    simp [h]
  · intro h1 h2
    unfold decide_next
    simp [List.isEmpty_iff, h1, h2]
  · intro h1 h2
    exact (decide_next_eq_revise_iff s).mpr ⟨h1, h2⟩
  · intro hmax h1
    rw [decide_next_eq_revise_iff, hmax]
    simp [h1]

/-- Witness for C4 at four concrete router states: empty issues, counter at
the bound, counter below the bound, and the default bound of 2. -/
theorem decide_next_router_witness :
    decide_next { issues := some [] } = "end"
    ∧ decide_next { issues := some [⟨"r", "m"⟩], i := some 2, max_iters := some 2 } = "end"
    ∧ decide_next { issues := some [⟨"r", "m"⟩], i := some 0, max_iters := some 2 } = "revise"
    ∧ (decide_next { issues := some [⟨"r", "m"⟩], i := some 1 } = "revise" ↔ (1 : Nat) < 2) := by
  refine ⟨?_, ?_, ?_, ?_⟩
  · exact (decide_next_router _).1 rfl
  · exact (decide_next_router _).2.1 (by decide) (by decide)
  · exact (decide_next_router _).2.2.1 (by decide) (by decide)
  · exact (decide_next_router _).2.2.2 rfl (by decide)

/-- C3: a non-streamed demo run and every single graph execution perform
exactly one retrieval call and one drafting generation call, as the claim
says; but attaching the streaming observer does change control flow and
the external calls: stream_run evaluates the never-imported name dt on the
first streamed event, so a streamed demo run raises NameError after
exactly one retrieval call and zero drafting calls and aborts before
app.invoke ever runs. -/
theorem run_demo_observer_crash (caps : Caps) (task : Option String) (s0 : DocState) :
    ((run_graph caps s0).2.retrievals = 1 ∧ (run_graph caps s0).2.draftCalls = 1)
    ∧ ((run_demo caps task false).1 =
          Except.ok (run_graph caps (initStateN (demoTask task) 2)).1
        ∧ (run_demo caps task false).2.retrievals = 1
        ∧ (run_demo caps task false).2.draftCalls = 1)
    ∧ ((run_demo caps task true).1 =
          Except.error (DemoError.nameError "name dt is not defined")
        ∧ (run_demo caps task true).2.retrievals = 1
        ∧ (run_demo caps task true).2.draftCalls = 0) := by
  refine ⟨run_graph_retrievals caps s0, ⟨rfl, ?_, ?_⟩, rfl, rfl, rfl⟩
  · exact (run_graph_retrievals caps (initStateN (demoTask task) 2)).1
  · exact (run_graph_retrievals caps (initStateN (demoTask task) 2)).2

/-- Length of the formatted context line list: one line per snippet. -/
theorem fmt_lines_length (idx : Nat) (docs : List Document) :
    (fmt_lines idx docs).length = docs.length := by
  induction docs generalizing idx with
  | nil => rfl
  | cons d ds ih => simp [fmt_lines, ih]

/-- Indexing into the formatted lines: the k-th line is the entry for the
k-th snippet, numbered idx + k. -/
theorem fmt_lines_getD (docs : List Document) :
    ∀ (idx k : Nat), k < docs.length →
      (fmt_lines idx docs).getD k "" = fmt_entry (idx + k) (docs.getD k ⟨"", none⟩) := by
  induction docs with
  | nil =>
    intro idx k h
    simp at h
  | cons d ds ih =>
    intro idx k h
    cases k with
    | zero => simp [fmt_lines]
    | succ k2 =>
      simp only [fmt_lines, List.getD_cons_succ]
      rw [ih (idx + 1) k2 (by simpa using h)]
      congr 1
      omega

/-- C8 (amended): the context formatter joins one line per snippet with
newlines; the k-th line consists of the 1-based index, the basename of the
snippet source in parentheses, the snippet text cut to the 350-character
preview bound with newlines replaced by spaces, and a trailing "..."
marker on every entry, truncated or not. -/
theorem fmt_context_shape (docs : List Document) (k : Nat) (hk : k < docs.length) :
    fmt_context docs = joinWith "\n" (fmt_lines 1 docs)
    ∧ (fmt_lines 1 docs).length = docs.length
    ∧ (fmt_lines 1 docs).getD k "" =
        "- [" ++ toString (k + 1) ++ "] ("
          ++ os_basename ((docs.getD k ⟨"", none⟩).source.getD "doc") ++ ") "
          ++ replaceChar (pyTruncate (docs.getD k ⟨"", none⟩).page_content 350) '\n' ' '
          ++ "..." := by
  refine ⟨rfl, fmt_lines_length 1 docs, ?_⟩
  rw [fmt_lines_getD docs 1 k hk, Nat.add_comm 1 k]
  rfl

/-- Witness for C8 at a concrete single-snippet list. -/
theorem fmt_context_shape_witness :
    (0 : Nat) < ([⟨"hi", some "a/g.pdf"⟩] : List Document).length
    ∧ (fmt_lines 1 [⟨"hi", some "a/g.pdf"⟩]).getD 0 "" = "- [1] (g.pdf) hi..." := by
  refine ⟨by decide, ?_⟩
  rw [(fmt_context_shape [⟨"hi", some "a/g.pdf"⟩] 0 (by decide)).2.2]
  decide

/-- C8 counterexample: a 2-character snippet, far below the 350-character
preview bound and hence not truncated at all, still receives the trailing
ellipsis marker — refuting "appended only to entries that were actually
truncated". -/
theorem fmt_context_ellipsis_on_short_entry :
    fmt_context [⟨"hi", some "a/g.pdf"⟩] = "- [1] (g.pdf) hi..."
    ∧ pyTruncate "hi" 350 = "hi" := by
  constructor
  · decide
  · decide

/-- Error type separating the two LLM failure modes: get_llm's RuntimeError
for a missing credential (lines 92-96) versus an error raised by the
generation call itself. -/
inductive LLMError where
  | configError (msg : String)
  | generationError (msg : String)
deriving Repr, DecidableEq

/-- get_llm (lines 92-96): os.getenv yields none when ANTHROPIC_API_KEY is
absent, and Python `if not api_key` also treats the empty string as
missing; in both cases a RuntimeError is raised before any model handle is
built.  The successful ChatAnthropic handle is opaque to this model. -/
def get_llm (api_key : Option String) : Except LLMError Unit :=
  if api_key.getD "" = "" then
    Except.error (LLMError.configError "Please set ANTHROPIC_API_KEY environment variable.")
  else Except.ok ()

/-- draft_node with the LLM plumbing explicit (lines 204-208): get_llm
runs first; only if it succeeds is the generation chain invoked on the
task and context. -/
def draft_node_llm (api_key : Option String)
    (gen : String → String → Except LLMError String) (s : DocState) :
    Except LLMError DocState :=
  match get_llm api_key with
  | Except.error e => Except.error e
  | Except.ok _ =>
    match gen (s.task.getD "") (s.context.getD "") with
    | Except.error e => Except.error e
    | Except.ok d => Except.ok { s with draft := some d }

/-- C9: with the credential absent, draft_node fails immediately with the
configuration error, for every generator whatsoever (so the generation
call is never consulted and there is no retry), and that error is distinct
from every generation-call error; when the credential is present and the
generation call itself fails, the failure surfaces as the distinct
generationError. -/
theorem missing_api_key_distinct_fatal
    (gen : String → String → Except LLMError String) (s : DocState) :
    (draft_node_llm none gen s =
      Except.error (LLMError.configError "Please set ANTHROPIC_API_KEY environment variable."))
    ∧ (∀ m m', LLMError.configError m ≠ LLMError.generationError m')
    ∧ (∀ key m, ¬ key = "" →
        gen (s.task.getD "") (s.context.getD "") = Except.error (LLMError.generationError m) →
        draft_node_llm (some key) gen s = Except.error (LLMError.generationError m)) := by
  refine ⟨rfl, ?_, ?_⟩
  · intro m m' hcontra
    exact LLMError.noConfusion hcontra
  · intro key m hk hgen
    unfold draft_node_llm get_llm
    simp [Option.getD_some, hk, hgen]

/-- Witness for C9: concrete generators for both failure modes. -/
theorem missing_api_key_distinct_fatal_witness :
    draft_node_llm none (fun _ _ => Except.ok "draft") {} =
      Except.error (LLMError.configError "Please set ANTHROPIC_API_KEY environment variable.")
    ∧ LLMError.configError "a" ≠ LLMError.generationError "a"
    ∧ draft_node_llm (some "k") (fun _ _ => Except.error (LLMError.generationError "boom")) {} =
        Except.error (LLMError.generationError "boom") := by
  have h1 := missing_api_key_distinct_fatal (fun _ _ => Except.ok "draft") ({} : DocState)
  have h2 := missing_api_key_distinct_fatal
    (fun _ _ => Except.error (LLMError.generationError "boom")) ({} : DocState)
  exact ⟨h1.1, h1.2.1 "a" "a", h2.2.2 "k" "boom" (by decide) rfl⟩
